import Mathlib

/-!
Verification of the Vodafone invoice downloader (v1.7.0, `main.go`).

The Go program is embedded shallowly: page text is a list of characters,
the two regex patterns of `parseInvoiceInfo`, the archive pattern of
`parseArchiveFirstEntry`, the capture harvest of `capturePDF`, the in-page
blob interception hook, the acquisition control flow of `downloadInvoice`,
and the mail construction of `buildMessage` are translated into executable
Lean functions.  Machine-level regex matching is modelled by explicit
leftmost scanning with maximal-munch character classes, which coincides
with Go's leftmost-first semantics on these patterns because adjacent
character classes in each pattern are disjoint (no backtracking can
rescue a failed maximal match).
-/

/-- Page text, tokens and field values are lists of characters
(Go strings, read at rune granularity). -/
abbrev Str := List Char

/-- Go regexp class `\s`, i.e. `[\t\n\f\r ]`. -/
def isSpaceChar (c : Char) : Bool :=
  c = ' ' || c = '\t' || c = '\n' || c = '\x0c' || c = '\r'

/-- Go regexp class `\p{L}` restricted to the Latin letter ranges that can
occur in the portal's German page text (ASCII letters, Latin-1 supplement
and Latin Extended-A letters, excluding the two arithmetic signs). -/
def isLetterChar (c : Char) : Bool :=
  ('A' ≤ c && c ≤ 'Z') || ('a' ≤ c && c ≤ 'z') ||
    (0xC0 ≤ c.toNat && c.toNat ≤ 0x17F && c.toNat ≠ 0xD7 && c.toNat ≠ 0xF7)

/-- Go regexp class `\d`, i.e. `[0-9]`. -/
def isDigitChar (c : Char) : Bool :=
  '0' ≤ c && c ≤ '9'

/-- Literal-prefix matcher: if `p` is a leading literal of `s`, return the
remainder of `s`, else `none`. -/
def dropPrefixL : Str → Str → Option Str
  | [], s => some s
  | _ :: _, [] => none
  | p :: ps, c :: cs => if c = p then dropPrefixL ps cs else none

/-- Whether `p` is a leading literal of `s`. -/
def hasPrefixL (p s : Str) : Bool :=
  (dropPrefixL p s).isSome

/-- `strings.TrimPrefix`: remove the leading literal `p` when present,
otherwise return `s` unchanged. -/
def trimPrefixL (p s : Str) : Str :=
  match dropPrefixL p s with
  | some r => r
  | none => s

/-- Leftmost scan: try the anchored matcher `f` at every position of the
text, left to right, and return the first success.  This is Go's
leftmost-first `FindStringSubmatch` search for the patterns embedded here. -/
def findFirst (f : Str → Option α) : Str → Option α
  | [] => f []
  | c :: rest =>
    match f (c :: rest) with
    | some r => some r
    | none => findFirst f rest

/-- `strings.Index` followed by slicing: the suffix of the text starting at
the first occurrence of `needle`, or `none` when absent. -/
def suffixFrom (needle : Str) : Str → Option Str
  | [] => if hasPrefixL needle [] then some [] else none
  | c :: rest =>
    if hasPrefixL needle (c :: rest) then some (c :: rest)
    else suffixFrom needle rest

/-- Regex fragment `(\d{4})`: four digit characters read from the front. -/
def take4Digits : Str → Option Str
  | a :: b :: c :: d :: _ =>
    if isDigitChar a && isDigitChar b && isDigitChar c && isDigitChar d then
      some [a, b, c, d]
    else none
  | _ => none

/-- The `months` table of `main.go`: the twelve German month names mapped
to two-digit numerals, in source order. -/
def monthsList : List (Str × Str) :=
  [("Januar".toList, "01".toList), ("Februar".toList, "02".toList),
   ("März".toList, "03".toList), ("April".toList, "04".toList),
   ("Mai".toList, "05".toList), ("Juni".toList, "06".toList),
   ("Juli".toList, "07".toList), ("August".toList, "08".toList),
   ("September".toList, "09".toList), ("Oktober".toList, "10".toList),
   ("November".toList, "11".toList), ("Dezember".toList, "12".toList)]

/-- Association-list lookup (the Go map read `months[name]`). -/
def lookupL (m : Str) : List (Str × Str) → Option Str
  | [] => none
  | (k, v) :: rest => if m = k then some v else lookupL m rest

/-- `months[name]` of `main.go`. -/
def monthsLookup (m : Str) : Option Str :=
  lookupL m monthsList

/-- The twelve table keys in source order. -/
def monthKeys : List Str :=
  monthsList.map (fun p => p.1)

/-- Anchored match of the first `parseInvoiceInfo` pattern
`Rechnung (\p{L}+) (\d{4})` at the front of `s`; on success returns the
two captures (month token, year token).  The greedy `\p{L}+` is the
maximal letter run, which is exact here: the letter run is followed by a
required space, and no letter is a space, so backtracking cannot rescue a
failed maximal match. -/
def matchP1At (s : Str) : Option (Str × Str) :=
  match dropPrefixL ("Rechnung ".toList) s with
  | none => none
  | some s1 =>
    let m := s1.takeWhile isLetterChar
    if m.isEmpty then none
    else
      match s1.drop m.length with
      | ' ' :: s3 => (take4Digits s3).map (fun y => (m, y))
      | _ => none

/-- Anchored match of the second `parseInvoiceInfo` pattern
`Rechnungsdatum[:\s]+\d+\.\s*(\p{L}+)\s+(\d{4})` at the front of `s`.
Every greedy class run is followed by a requirement from a disjoint
class (digit after `[:\s]+`, dot after `\d+`, letter after `\s*`, space
after `\p{L}+`, digit after `\s+`), so maximal munch is exact. -/
def matchP2At (s : Str) : Option (Str × Str) :=
  match dropPrefixL ("Rechnungsdatum".toList) s with
  | none => none
  | some s1 =>
    let w := s1.takeWhile (fun c => c = ':' || isSpaceChar c)
    if w.isEmpty then none
    else
      let s2 := s1.drop w.length
      let d := s2.takeWhile isDigitChar
      if d.isEmpty then none
      else
        match s2.drop d.length with
        | '.' :: s4 =>
          let sp := s4.takeWhile isSpaceChar
          let s5 := s4.drop sp.length
          let m := s5.takeWhile isLetterChar
          if m.isEmpty then none
          else
            let s6 := s5.drop m.length
            let sp2 := s6.takeWhile isSpaceChar
            if sp2.isEmpty then none
            else (take4Digits (s6.drop sp2.length)).map (fun y => (m, y))
        | _ => none

/-- Result record of one acquisition (`InvoiceInfo` of `main.go`).
`PDFData` is an opaque byte sequence.  The Go field `Type` is called
`TypeName` here because its Go name is a reserved word in Lean. -/
structure InvoiceInfo where
  Filename : Str := []
  Month : Str
  Year : Str
  MonthName : Str
  TypeName : Str := []
  PDFData : List Nat := []
deriving DecidableEq, Repr

/-- One iteration of the pattern loop in `parseInvoiceInfo`: find the
leftmost match of the pattern, and accept it only when its month token is
a key of the `months` table. -/
def tryPattern (matchAt : Str → Option (Str × Str)) (text : Str) :
    Option InvoiceInfo :=
  match findFirst matchAt text with
  | some (m, y) =>
    match monthsLookup m with
    | some mm => some { Month := mm, Year := y, MonthName := m }
    | none => none
  | none => none

/-- `parseInvoiceInfo` of `main.go` (v1.7.0): try the two patterns in
source order, returning the first accepted match; a pattern whose
leftmost match has an unrecognized month token is abandoned and the next
pattern is tried. -/
def parseInvoiceInfo (text : Str) : Option InvoiceInfo :=
  match tryPattern matchP1At text with
  | some info => some info
  | none => tryPattern matchP2At text

/-- Anchored match of the archive pattern
`(Januar|…|Dezember)\s+\d{2}\.\d{2}\.(\d{4})` at the front of `s`.
The twelve alternatives are tried in source order; none is a literal
leading part of another, so at most one can apply at a given position. -/
def matchArchAt (s : Str) : Option (Str × Str) :=
  match monthKeys.findSome? (fun name =>
      (dropPrefixL name s).map (fun rest => (name, rest))) with
  | none => none
  | some (name, s1) =>
    let sp := s1.takeWhile isSpaceChar
    if sp.isEmpty then none
    else
      match s1.drop sp.length with
      | a :: b :: '.' :: c :: d :: '.' :: s2 =>
        if isDigitChar a && isDigitChar b && isDigitChar c && isDigitChar d then
          (take4Digits s2).map (fun y => (name, y))
        else none
      | _ => none

/-- `parseArchiveFirstEntry` of `main.go`: slice the text at the first
occurrence of the literal marker `Rechnungsarchiv` and return the
leftmost month-plus-date match inside that suffix. -/
def parseArchiveFirstEntry (text : Str) : Option InvoiceInfo :=
  match suffixFrom ("Rechnungsarchiv".toList) text with
  | none => none
  | some archiveText =>
    match findFirst matchArchAt archiveText with
    | some (name, y) =>
      match monthsLookup name with
      | some mm => some { Month := mm, Year := y, MonthName := name }
      | none => none
    | none => none

/-- The value of one base64 alphabet character (`encoding/base64`,
standard alphabet), or `none` for a character outside the alphabet. -/
def b64Val (c : Char) : Option Nat :=
  if 'A' ≤ c && c ≤ 'Z' then some (c.toNat - 'A'.toNat)
  else if 'a' ≤ c && c ≤ 'z' then some (c.toNat - 'a'.toNat + 26)
  else if '0' ≤ c && c ≤ '9' then some (c.toNat - '0'.toNat + 52)
  else if c = '+' then some 62
  else if c = '/' then some 63
  else none

/-- Decode base64 four-character quanta (`encoding/base64` standard
padded decoding): a quantum ending in `==` yields one byte, one ending in
`=` yields two, and padding is legal only in the final quantum; any other
character outside the alphabet, and any trailing group shorter than four
characters, is a decode error. -/
def b64Groups : Str → Option (List Nat)
  | [] => some []
  | a :: b :: c :: d :: rest =>
    match b64Val a, b64Val b with
    | some va, some vb =>
      if c = '=' then
        if d = '=' && rest.isEmpty then some [va * 4 + vb / 16]
        else none
      else
        match b64Val c with
        | some vc =>
          if d = '=' then
            if rest.isEmpty then some [va * 4 + vb / 16, (vb % 16) * 16 + vc / 4]
            else none
          else
            match b64Val d with
            | some vd =>
              (b64Groups rest).map (fun bs =>
                (va * 4 + vb / 16) :: ((vb % 16) * 16 + vc / 4) ::
                  ((vc % 4) * 64 + vd) :: bs)
            | none => none
        | none => none
    | _, _ => none
  | _ => none

/-- `base64.StdEncoding.DecodeString`: carriage returns and newlines are
ignored, everything else is decoded strictly in four-character quanta. -/
def base64Decode (s : Str) : Option (List Nat) :=
  b64Groups (s.filter (fun c => c ≠ '\r' && c ≠ '\n'))

/-- The data-URL marker stripped by `capturePDF`. -/
def dataURLPref : Str :=
  "data:application/pdf;base64,".toList

/-- The harvest step of `capturePDF` (v1.7.0): given the page-global
captured queue read back from the session, fail when it is empty,
otherwise decode the first entry (later entries are ignored) after
stripping the data-URL marker.  `none` models the Go error return. -/
def capturePDF (captured : List Str) : Option (List Nat) :=
  match captured with
  | [] => none
  | first :: _ => base64Decode (trimPrefixL dataURLPref first)

/-- Acquisition outcome of one category, following §4.4 of the design:
the code's successful return, its `no archive entry found` exit and its
`archive download failed` exit. -/
inductive Outcome
  | Captured (doc : InvoiceInfo)
  | NotFound
  | CaptureFailed
deriving DecidableEq, Repr

/-- Filename construction of `downloadInvoice`:
`fmt.Sprintf("%s_%s_Rechnung_Vodafone_%s.pdf", month, year, tag)`. -/
def mkFilename (month year tag : Str) : Str :=
  month ++ '_' :: year ++ "_Rechnung_Vodafone_".toList ++ tag ++ ".pdf".toList

/-- `downloadInvoice` of `main.go` (v1.7.0), with the two browser capture
attempts abstracted into their results: `primaryCapture` is what
`capturePDF ctx clickCurrentInvoice` would return, `archiveCapture` what
`capturePDF ctx clickFirstArchiveEntry` would return (`none` = error).
The control flow is the source's: try the extractor, require the current
period, try the primary capture; on any miss fall back to the archive
resolver over the same page text. -/
def downloadInvoice (pageText : Str) (typeName tag : Str)
    (currentMonth currentYear : Str)
    (primaryCapture archiveCapture : Option (List Nat)) : Outcome :=
  let fallback : Outcome :=
    match parseArchiveFirstEntry pageText with
    | none => Outcome.NotFound
    | some ai =>
      match archiveCapture with
      | none => Outcome.CaptureFailed
      | some pdf =>
        Outcome.Captured
          { ai with TypeName := typeName,
                    Filename := mkFilename ai.Month ai.Year tag,
                    PDFData := pdf }
  match parseInvoiceInfo pageText with
  | some info =>
    if info.Month = currentMonth ∧ info.Year = currentYear then
      match primaryCapture with
      | some pdf =>
        Outcome.Captured
          { info with TypeName := typeName,
                      Filename := mkFilename info.Month info.Year tag,
                      PDFData := pdf }
      | none => fallback
    else fallback
  | none => fallback

/-- A browser blob: a MIME type and a base64 payload. -/
structure Blob where
  mime : Str
  payload : Str
deriving DecidableEq, Repr

/-- What the page-global slot `URL.createObjectURL` can point to: the
browser's original primitive, or the interception wrapper installed by
`capturePDF`. -/
inductive FuncRef
  | original
  | wrapper
deriving DecidableEq, Repr

/-- The page-global state touched by the interception hook:
`window._capturedPDFs`, `window._origCreateObjectURL` and the current
value of `URL.createObjectURL`. -/
structure PageState where
  capturedPDFs : List Str
  origCreateObjectURL : Option FuncRef
  createObjectURL : FuncRef
deriving DecidableEq, Repr

/-- The reader result pushed by the hook: the data URL of the blob. -/
def dataURLOf (b : Blob) : Str :=
  "data:".toList ++ b.mime ++ ";base64,".toList ++ b.payload

/-- The install phase of `capturePDF`: reset the queue, save the current
primitive into `_origCreateObjectURL` only when that slot is still unset,
then overwrite `URL.createObjectURL` with the wrapper. -/
def installHook (s : PageState) : PageState :=
  let s1 : PageState := { s with capturedPDFs := [] }
  let s2 : PageState :=
    if s1.origCreateObjectURL.isNone then
      { s1 with origCreateObjectURL := some s1.createObjectURL }
    else s1
  { s2 with createObjectURL := FuncRef.wrapper }

/-- The page calling `URL.createObjectURL(blob)`.  The original primitive
leaves the state unchanged.  The wrapper appends the data URL of a PDF
blob to the queue and then calls through `_origCreateObjectURL`; if that
slot does not hold the original primitive the call cannot complete
normally (unset slot or self-reference), modelled as `none`. -/
def invokeCreateObjectURL (s : PageState) (b : Blob) : Option PageState :=
  match s.createObjectURL with
  | FuncRef.original => some s
  | FuncRef.wrapper =>
    let s1 : PageState :=
      if b.mime = ("application/pdf".toList : Str) then
        { s with capturedPDFs := s.capturedPDFs ++ [dataURLOf b] }
      else s
    match s1.origCreateObjectURL with
    | some FuncRef.original => some s1
    | _ => none

/-- A built mail message (the `gomail.Message` fields that
`buildMessage` sets): headers, plain-text body and the attachment list as
(filename, bytes) pairs in order. -/
structure EmailMessage where
  FromAddr : Str
  ToAddr : Str
  Subject : Str
  Body : Str
  Attachments : List (Str × List Nat)
deriving DecidableEq, Repr

/-- The default subject of `buildMessage`. -/
def defaultSubject : Str :=
  "Deine PDF-Rechnungen von Vodafone".toList

/-- One body line of `buildMessage`:
`fmt.Sprintf("- %s: %s %s\n", inv.Type, inv.MonthName, inv.Year)`. -/
def invoiceLine (inv : InvoiceInfo) : Str :=
  "- ".toList ++ inv.TypeName ++ ": ".toList ++ inv.MonthName ++
    ' ' :: inv.Year ++ ['\n']

/-- `buildMessage` of `main.go` (v1.7.0): headers from configuration with
the default subject when the configured one is empty, a body listing
every invoice, and one attachment per invoice whose `PDFData` is
non-empty (empty payloads are skipped). -/
def buildMessage (emailFrom emailTo emailSubject : Str)
    (invoices : List InvoiceInfo) : EmailMessage :=
  { FromAddr := emailFrom
    ToAddr := emailTo
    Subject := if emailSubject.isEmpty then defaultSubject else emailSubject
    Body := "Dokumente anbei.\n".toList ++ (invoices.map invoiceLine).flatten
    Attachments :=
      (invoices.filter (fun inv => !inv.PDFData.isEmpty)).map
        (fun inv => (inv.Filename, inv.PDFData)) }

example : base64Decode ("UERG".toList) = some [80, 68, 70] := by decide
example : base64Decode ([] : Str) = some [] := by decide
example : base64Decode ("JVBERg==".toList) = some [37, 80, 68, 70] := by decide
example : base64Decode ("JVBERg==x".toList) = none := by decide
example : base64Decode ("%%%".toList) = none := by decide
example : capturePDF ["data:application/pdf;base64,UERG".toList] = some [80, 68, 70] := by decide
example : capturePDF ["data:application/pdf;base64,".toList] = some [] := by decide
example : capturePDF [] = none := by decide
example : monthsLookup ("März".toList) = some ("03".toList) := by decide
example : monthsLookup ("January".toList) = none := by decide
example : take4Digits ("2026x".toList) = some ("2026".toList) := by decide
example : suffixFrom ("bc".toList) ("abcd".toList) = some ("bcd".toList) := by decide
example : parseInvoiceInfo ("Aktuelle Rechnung Februar 2026".toList) =
    some { Month := "02".toList, Year := "2026".toList, MonthName := "Februar".toList } := by
  decide
example : parseInvoiceInfo ("Rechnungsdatum: 01. Januar 2026".toList) =
    some { Month := "01".toList, Year := "2026".toList, MonthName := "Januar".toList } := by
  decide
example : parseInvoiceInfo ("Aktuelle Rechnung January 2026".toList) = none := by decide
example : parseInvoiceInfo ("Aktuelle Rechnung februar 2026".toList) = none := by decide
example : parseInvoiceInfo ("Aktuelle Rechnung Februar 26".toList) = none := by decide
example : parseInvoiceInfo ("Rechnungsdatum:  01.  März  2026".toList) =
    some { Month := "03".toList, Year := "2026".toList, MonthName := "März".toList } := by
  decide
example :
    parseInvoiceInfo
      ("Aktuelle Rechnung Februar 2026\nRechnungsdatum: 15. Januar 2025".toList) =
    some { Month := "02".toList, Year := "2026".toList, MonthName := "Februar".toList } := by
  decide
example :
    parseArchiveFirstEntry
      ("Aktuelle Rechnung Februar 2026\nRechnungsarchiv\nJanuar\n04.01.2026\nRechnung (PDF)".toList) =
    some { Month := "01".toList, Year := "2026".toList, MonthName := "Januar".toList } := by
  decide
example : parseArchiveFirstEntry ("Rechnungsarchiv\nKeine Rechnungen vorhanden.".toList) = none := by
  decide
example : parseArchiveFirstEntry ("Aktuelle Rechnung Februar 2026\nKeine weiteren.".toList) = none := by
  decide
example :
    parseArchiveFirstEntry
      ("Rechnungsarchiv\nNovember\n10.11.2025\nOktober\n09.10.2025".toList) =
    some { Month := "11".toList, Year := "2025".toList, MonthName := "November".toList } := by
  decide
example : parseArchiveFirstEntry ("Rechnungsarchiv\nJanuary\n04.01.2026\n24,98".toList) = none := by
  decide
example :
    parseArchiveFirstEntry
      ("Rechnungsarchiv\nJanuary\n04.01.2026\nFebruar\n04.12.2025".toList) =
    some { Month := "02".toList, Year := "2025".toList, MonthName := "Februar".toList } := by
  decide

/-! ### Helper lemmas about the scanning primitives -/

theorem dropPrefixL_eq_some_iff {p s r : Str} :
    dropPrefixL p s = some r ↔ s = p ++ r := by
  induction p generalizing s with
  | nil =>
    cases s <;> simp [dropPrefixL]
  | cons a p ih =>
    cases s with
    | nil => simp [dropPrefixL]
    | cons c cs =>
      by_cases h : c = a
      · subst h
        simp [dropPrefixL, ih]
      · simp [dropPrefixL, h, Ne.symm h]

theorem dropPrefixL_self_append (p s : Str) : dropPrefixL p (p ++ s) = some s :=
  dropPrefixL_eq_some_iff.mpr rfl

theorem hasPrefixL_iff {p s : Str} : hasPrefixL p s = true ↔ ∃ r, s = p ++ r := by
  unfold hasPrefixL
  cases h : dropPrefixL p s with
  | none =>
    simp only [Option.isSome_none]
    constructor
    · intro hf
      exact absurd hf (by simp)
    · rintro ⟨r, rfl⟩
      rw [dropPrefixL_self_append] at h
      cases h
  | some r =>
    simp only [Option.isSome_some, true_iff]
    exact ⟨r, dropPrefixL_eq_some_iff.mp h⟩

theorem suffixFrom_eq_none_iff {n t : Str} :
    suffixFrom n t = none ↔ ∀ u v, t ≠ u ++ n ++ v := by
  induction t with
  | nil =>
    constructor
    · intro hnone u v ht
      have hu : u = [] := by
        cases u with
        | nil => rfl
        | cons a l => exact absurd ht (by simp)
      subst hu
      have hn : n = [] := by
        cases n with
        | nil => rfl
        | cons a l => exact absurd ht (by simp)
      subst hn
      simp [suffixFrom, hasPrefixL, dropPrefixL] at hnone
    · intro hall
      unfold suffixFrom
      by_cases h : hasPrefixL n [] = true
      · obtain ⟨r, hr⟩ := hasPrefixL_iff.mp h
        have hn : n = [] := by
          cases n with
          | nil => rfl
          | cons a l => exact absurd hr (by simp)
        exact ((hall [] [] (by simp [hn])).elim)
      · rw [if_neg h]
  | cons c t ih =>
    constructor
    · intro hnone u v ht
      unfold suffixFrom at hnone
      by_cases h : hasPrefixL n (c :: t) = true
      · rw [if_pos h] at hnone
        cases hnone
      · rw [if_neg h] at hnone
        cases u with
        | nil =>
          exact h (hasPrefixL_iff.mpr ⟨v, by simpa using ht⟩)
        | cons a u' =>
          have ht' : t = u' ++ n ++ v := by
            have := ht
            simp only [List.cons_append, List.cons.injEq] at this
            exact this.2
          exact ih.mp hnone u' v ht'
    · intro hall
      unfold suffixFrom
      by_cases h : hasPrefixL n (c :: t) = true
      · obtain ⟨r, hr⟩ := hasPrefixL_iff.mp h
        exact ((hall [] r (by simpa using hr)).elim)
      · rw [if_neg h]
        exact ih.mpr (fun u v hv => hall (c :: u) v (by simp [hv]))

theorem findFirst_of_self {f : Str → Option α} {l : Str} {r : α}
    (h : f l = some r) : findFirst f l = some r := by
  cases l with
  | nil => simpa [findFirst] using h
  | cons c rest => simp [findFirst, h]

theorem findFirst_cons_none {f : Str → Option α} {c : Char} {l : Str}
    (h : f (c :: l) = none) : findFirst f (c :: l) = findFirst f l := by
  simp [findFirst, h]

theorem findFirst_skip {f : Str → Option α} {xs : Str} (ys : Str)
    (h : ∀ c ∈ xs, ∀ rest, f (c :: rest) = none) :
    findFirst f (xs ++ ys) = findFirst f ys := by
  induction xs with
  | nil => rfl
  | cons c xs ih =>
    rw [List.cons_append,
      findFirst_cons_none (h c (by simp) (xs ++ ys)),
      ih (fun a ha rest => h a (by simp [ha]) rest)]

theorem takeWhile_all_append {p : Char → Bool} {m : Str} (c : Char) (r : Str)
    (hm : ∀ a ∈ m, p a = true) (hc : p c = false) :
    (m ++ c :: r).takeWhile p = m := by
  induction m with
  | nil => simp [List.takeWhile, hc]
  | cons a l ih =>
    simp only [List.cons_append, List.takeWhile]
    rw [hm a (by simp)]
    simp [ih (fun b hb => hm b (by simp [hb]))]

theorem lookupL_mem {m v : Str} : ∀ {l : List (Str × Str)},
    lookupL m l = some v → (m, v) ∈ l
  | [], h => by cases h
  | (k, w) :: rest, h => by
    by_cases hk : m = k
    · subst hk
      simp [lookupL] at h
      simp [h]
    · simp [lookupL, hk] at h
      exact List.mem_cons_of_mem _ (lookupL_mem h)

/-- Character facts shared by every key of the `months` table: keys are
non-empty, all letters, and contain no capital `R` (so no pattern-1 match
can begin inside a month name). -/
theorem monthKey_facts {m mm : Str} (h : monthsLookup m = some mm) :
    m.all isLetterChar = true ∧ m.isEmpty = false ∧
      m.all (fun c => c != 'R') = true := by
  have hmem : (m, mm) ∈ monthsList := lookupL_mem h
  have hall : monthsList.all (fun p =>
      p.1.all isLetterChar && !p.1.isEmpty && p.1.all (fun c => c != 'R')) = true := by
    decide
  have := (List.all_eq_true.mp hall) _ hmem
  simp only [Bool.and_eq_true, Bool.not_eq_true'] at this
  exact ⟨this.1.1, this.1.2, this.2⟩

theorem letter_not_space {c : Char} (h : isLetterChar c = true) :
    isSpaceChar c = false := by
  cases hs : isSpaceChar c with
  | false => rfl
  | true =>
    exfalso
    simp only [isSpaceChar, Bool.or_eq_true, decide_eq_true_eq] at hs
    rcases hs with ((((rfl | rfl) | rfl) | rfl) | rfl) <;> simp [isLetterChar] at h

theorem digit_not_space {c : Char} (h : isDigitChar c = true) :
    isSpaceChar c = false := by
  cases hs : isSpaceChar c with
  | false => rfl
  | true =>
    exfalso
    simp only [isSpaceChar, Bool.or_eq_true, decide_eq_true_eq] at hs
    rcases hs with ((((rfl | rfl) | rfl) | rfl) | rfl) <;> simp [isDigitChar] at h

theorem digit_ne_R {c : Char} (h : isDigitChar c = true) : c ≠ 'R' := by
  rintro rfl
  exact absurd h (by decide)

theorem matchP1At_cons_ne {c : Char} {rest : Str} (h : c ≠ 'R') :
    matchP1At (c :: rest) = none := by
  have hlit : ("Rechnung ".toList : Str) =
      'R' :: 'e' :: 'c' :: 'h' :: 'n' :: 'u' :: 'n' :: 'g' :: ' ' :: [] := rfl
  simp [matchP1At, hlit, dropPrefixL, h]

theorem matchP1At_nil : matchP1At [] = none := rfl

theorem take4Digits_of_digits {d1 d2 d3 d4 : Char} (r : Str)
    (h1 : isDigitChar d1 = true) (h2 : isDigitChar d2 = true)
    (h3 : isDigitChar d3 = true) (h4 : isDigitChar d4 = true) :
    take4Digits (d1 :: d2 :: d3 :: d4 :: r) = some [d1, d2, d3, d4] := by
  simp [take4Digits, h1, h2, h3, h4]

theorem matchP1At_label {m : Str} (d1 d2 d3 d4 : Char)
    (hletters : m.all isLetterChar = true) (hne : m.isEmpty = false)
    (h1 : isDigitChar d1 = true) (h2 : isDigitChar d2 = true)
    (h3 : isDigitChar d3 = true) (h4 : isDigitChar d4 = true) :
    matchP1At ("Rechnung ".toList ++ m ++ ' ' :: [d1, d2, d3, d4]) =
      some (m, [d1, d2, d3, d4]) := by
  have htw : ((m ++ ' ' :: [d1, d2, d3, d4]).takeWhile isLetterChar) = m :=
    takeWhile_all_append ' ' _ (fun a ha => List.all_eq_true.mp hletters a ha)
      (by decide)
  unfold matchP1At
  rw [List.append_assoc, dropPrefixL_self_append]
  simp only [htw, hne, Bool.false_eq_true, if_false, List.drop_left]
  rw [take4Digits_of_digits [] h1 h2 h3 h4]
  rfl

theorem matchP2At_label {m : Str} (d1 d2 d3 d4 : Char)
    (hletters : m.all isLetterChar = true) (hne : m.isEmpty = false)
    (h1 : isDigitChar d1 = true) (h2 : isDigitChar d2 = true)
    (h3 : isDigitChar d3 = true) (h4 : isDigitChar d4 = true) :
    matchP2At ("Rechnungsdatum: 01. ".toList ++ m ++ ' ' :: [d1, d2, d3, d4]) =
      some (m, [d1, d2, d3, d4]) := by
  obtain ⟨mh, mt, rfl⟩ : ∃ mh mt, m = mh :: mt := by
    cases m with
    | nil => simp at hne
    | cons a l => exact ⟨a, l, rfl⟩
  have hmh : isLetterChar mh = true :=
    List.all_eq_true.mp hletters mh (by simp)
  have hlit : ("Rechnungsdatum: 01. ".toList : Str) =
      ("Rechnungsdatum".toList : Str) ++
        (':' :: ' ' :: '0' :: '1' :: '.' :: ' ' :: []) := by decide
  have htw : ((mh :: (mt ++ [' ', d1, d2, d3, d4])).takeWhile isLetterChar) =
      mh :: mt := by
    rw [← List.cons_append]
    exact takeWhile_all_append ' ' _
      (fun a ha => List.all_eq_true.mp hletters a ha) (by decide)
  have hdrop : (mh :: (mt ++ [' ', d1, d2, d3, d4])).drop (mh :: mt).length =
      [' ', d1, d2, d3, d4] := by
    rw [← List.cons_append]
    exact List.drop_left _ _
  have hq0 : isSpaceChar '0' = false := rfl
  have hqsp : isSpaceChar ' ' = true := rfl
  have hd0 : isDigitChar '0' = true := rfl
  have hd1l : isDigitChar '1' = true := rfl
  have hddot : isDigitChar '.' = false := rfl
  unfold matchP2At
  rw [List.append_assoc, hlit, List.append_assoc, dropPrefixL_self_append]
  simp [List.takeWhile_cons, hq0, hqsp, hd0, hd1l, hddot,
    letter_not_space hmh, digit_not_space h1, htw, hdrop,
    take4Digits_of_digits [] h1 h2 h3 h4]

/-- If no character of the text is a capital `R`, the first pattern can
match nowhere. -/
theorem findFirst_matchP1At_none_of_no_R {l : Str}
    (h : l.all (fun c => c != 'R') = true) :
    findFirst matchP1At l = none := by
  induction l with
  | nil => exact matchP1At_nil
  | cons c rest ih =>
    simp only [List.all_cons, Bool.and_eq_true] at h
    rw [findFirst_cons_none (matchP1At_cons_ne (by simpa using h.1))]
    exact ih h.2

/-- Over text of the second label phrasing the first pattern matches
nowhere: the single capital `R` opens `Rechnungsdatum`, where the literal
`Rechnung ` fails on its trailing space, and no other position starts
with `R`. -/
theorem findFirst_matchP1At_p2text {m : Str} (d1 d2 d3 d4 : Char)
    (hmR : m.all (fun c => c != 'R') = true)
    (h1 : isDigitChar d1 = true) (h2 : isDigitChar d2 = true)
    (h3 : isDigitChar d3 = true) (h4 : isDigitChar d4 = true) :
    findFirst matchP1At
      ("Rechnungsdatum: 01. ".toList ++ m ++ ' ' :: [d1, d2, d3, d4]) = none := by
  have hsplit : ("Rechnungsdatum: 01. ".toList : Str) ++ m ++ ' ' :: [d1, d2, d3, d4] =
      'R' :: ('e' :: 'c' :: 'h' :: 'n' :: 'u' :: 'n' :: 'g' :: 's' ::
        (['d', 'a', 't', 'u', 'm', ':', ' ', '0', '1', '.', ' '] ++
          (m ++ ' ' :: [d1, d2, d3, d4]))) := by
    rw [List.append_assoc,
      show ("Rechnungsdatum: 01. ".toList : Str) =
        'R' :: 'e' :: 'c' :: 'h' :: 'n' :: 'u' :: 'n' :: 'g' :: 's' ::
          ['d', 'a', 't', 'u', 'm', ':', ' ', '0', '1', '.', ' '] from by decide]
    simp
  have h0 : matchP1At ('R' :: ('e' :: 'c' :: 'h' :: 'n' :: 'u' :: 'n' :: 'g' :: 's' ::
      (['d', 'a', 't', 'u', 'm', ':', ' ', '0', '1', '.', ' '] ++
        (m ++ ' ' :: [d1, d2, d3, d4])))) = none := by
    simp [matchP1At, dropPrefixL,
      show ("Rechnung ".toList : Str) =
        ['R', 'e', 'c', 'h', 'n', 'u', 'n', 'g', ' '] from by decide]
  have e1 : (d1 != 'R') = true := by simp [digit_ne_R h1]
  have e2 : (d2 != 'R') = true := by simp [digit_ne_R h2]
  have e3 : (d3 != 'R') = true := by simp [digit_ne_R h3]
  have e4 : (d4 != 'R') = true := by simp [digit_ne_R h4]
  rw [hsplit, findFirst_cons_none h0]
  exact findFirst_matchP1At_none_of_no_R
    (by simp [List.all_append, List.all_cons, hmR, e1, e2, e3, e4])

/-! ### Claim theorems -/

/-- Claim C1: whenever the metadata extractor yields no period equal to
the current month and year, or the primary capture fails, the acquisition
consults the archive resolver on the same page text; an archive entry
with a successful archive capture yields `Captured` carrying that entry's
period, no archive entry yields `NotFound`, and an archive entry with a
failed archive capture yields `CaptureFailed`. -/
theorem downloadInvoice_archive_fallback
    (text typeName tag cm cy : Str) (primary archive : Option (List Nat))
    (h : (∀ i, parseInvoiceInfo text = some i → ¬(i.Month = cm ∧ i.Year = cy)) ∨
      primary = none) :
    (parseArchiveFirstEntry text = none →
      downloadInvoice text typeName tag cm cy primary archive = Outcome.NotFound) ∧
    (∀ ai, parseArchiveFirstEntry text = some ai → archive = none →
      downloadInvoice text typeName tag cm cy primary archive = Outcome.CaptureFailed) ∧
    (∀ ai pdf, parseArchiveFirstEntry text = some ai → archive = some pdf →
      downloadInvoice text typeName tag cm cy primary archive =
        Outcome.Captured
          { ai with
            TypeName := typeName
            Filename := mkFilename ai.Month ai.Year tag
            PDFData := pdf }) := by
  have hfb : ∀ r : Outcome,
      (match parseArchiveFirstEntry text with
        | none => Outcome.NotFound
        | some ai =>
          match archive with
          | none => Outcome.CaptureFailed
          | some pdf =>
            Outcome.Captured
              { ai with
                TypeName := typeName
                Filename := mkFilename ai.Month ai.Year tag
                PDFData := pdf }) = r →
      downloadInvoice text typeName tag cm cy primary archive = r := by
    intro r hr
    unfold downloadInvoice
    cases hpi : parseInvoiceInfo text with
    | none => simpa [hpi] using hr
    | some i =>
      by_cases hc : i.Month = cm ∧ i.Year = cy
      · rcases h with hL | hR
        · exact absurd hc (hL i hpi)
        · subst hR
          simpa [hpi, hc] using hr
      · simpa [hpi, hc] using hr
  refine ⟨?_, ?_, ?_⟩
  · intro hpa
    exact hfb _ (by rw [hpa])
  · intro ai hpa harch
    exact hfb _ (by rw [hpa, harch])
  · intro ai pdf hpa harch
    exact hfb _ (by rw [hpa, harch])

/-- Witness for C1: a page with only an archive section, primary capture
absent, and a successful archive capture produces `Captured` with the
archive entry's period. -/
theorem downloadInvoice_archive_fallback_witness :
    downloadInvoice ("Rechnungsarchiv\nJanuar\n04.01.2026".toList)
      ("Mobilfunk".toList) ("Mobilfunk".toList) ("02".toList) ("2026".toList)
      none (some [37, 80, 68, 70]) =
      Outcome.Captured
        { Filename := "01_2026_Rechnung_Vodafone_Mobilfunk.pdf".toList,
          Month := "01".toList, Year := "2026".toList,
          MonthName := "Januar".toList, TypeName := "Mobilfunk".toList,
          PDFData := [37, 80, 68, 70] } := by
  have h := (downloadInvoice_archive_fallback
    ("Rechnungsarchiv\nJanuar\n04.01.2026".toList) ("Mobilfunk".toList)
    ("Mobilfunk".toList) ("02".toList) ("2026".toList) none
    (some [37, 80, 68, 70]) (Or.inr rfl)).2.2
    { Month := "01".toList, Year := "2026".toList, MonthName := "Januar".toList }
    [37, 80, 68, 70] (by decide) rfl
  exact h

/-- Claim C2: the patterns of `parseInvoiceInfo` are tried in a fixed
priority order: whenever pattern 1 has a leftmost match whose month token
is a table key, that match determines the whole result — pattern 2 is
never consulted, regardless of where its own occurrence sits in the
text. -/
theorem parseInvoiceInfo_pattern_priority (text m y mm : Str)
    (hfind : findFirst matchP1At text = some (m, y))
    (hmm : monthsLookup m = some mm) :
    parseInvoiceInfo text = some { Month := mm, Year := y, MonthName := m } := by
  simp [parseInvoiceInfo, tryPattern, hfind, hmm]

/-- Witness for C2: a text whose pattern-2 occurrence (`Januar 2025`)
appears before the pattern-1 occurrence (`Februar 2026`) is still
resolved by pattern 1. -/
theorem parseInvoiceInfo_pattern_priority_witness :
    findFirst matchP2At
      ("Rechnungsdatum: 15. Januar 2025 und Rechnung Februar 2026".toList) =
      some ("Januar".toList, "2025".toList) ∧
    parseInvoiceInfo
      ("Rechnungsdatum: 15. Januar 2025 und Rechnung Februar 2026".toList) =
      some { Month := "02".toList, Year := "2026".toList,
             MonthName := "Februar".toList } :=
  ⟨by decide,
   parseInvoiceInfo_pattern_priority _ _ _ _ (by decide) (by decide)⟩

/-- Claim C6: `parseInvoiceInfo` returns `none` whenever neither
pattern's leftmost match carries a month token that is a key of the
twelve-entry table (a 4-digit year is already required by the patterns
themselves). -/
theorem parseInvoiceInfo_none_of_rejected (text : Str)
    (h1 : Option.all (fun r => (monthsLookup r.1).isNone)
      (findFirst matchP1At text) = true)
    (h2 : Option.all (fun r => (monthsLookup r.1).isNone)
      (findFirst matchP2At text) = true) :
    parseInvoiceInfo text = none := by
  have k1 : tryPattern matchP1At text = none := by
    cases hf : findFirst matchP1At text with
    | none => simp [tryPattern, hf]
    | some r =>
      obtain ⟨m, y⟩ := r
      rw [hf] at h1
      have hl : monthsLookup m = none := by
        simpa [Option.all, Option.isNone_iff_eq_none] using h1
      simp [tryPattern, hf, hl]
  have k2 : tryPattern matchP2At text = none := by
    cases hf : findFirst matchP2At text with
    | none => simp [tryPattern, hf]
    | some r =>
      obtain ⟨m, y⟩ := r
      rw [hf] at h2
      have hl : monthsLookup m = none := by
        simpa [Option.all, Option.isNone_iff_eq_none] using h2
      simp [tryPattern, hf, hl]
  simp [parseInvoiceInfo, k1, k2]

/-- Witness for C6: an English month name is outside the table, so the
extractor rejects the page. -/
theorem parseInvoiceInfo_none_of_rejected_witness :
    parseInvoiceInfo ("Aktuelle Rechnung January 2026".toList) = none :=
  parseInvoiceInfo_none_of_rejected _ (by decide) (by decide)

/-- Counterexample to claim C7 as stated: the harvest also fails on a
non-empty queue when the first entry is not valid base64, so failing
exactly on an empty queue is wrong. -/
theorem capturePDF_error_on_nonempty_queue :
    capturePDF ["%%%".toList] = none ∧ (["%%%".toList] : List Str) ≠ [] := by
  decide

/-- Claim C7 (amended): the harvest fails on an empty queue, and on a
non-empty queue it uses only the first entry — stripping the data-URL
marker and returning its base64 decoding, which itself can fail on
invalid base64. -/
theorem capturePDF_first_entry_decode :
    capturePDF [] = none ∧
    ∀ (first : Str) (rest : List Str),
      capturePDF (first :: rest) =
        base64Decode (trimPrefixL dataURLPref first) :=
  ⟨rfl, fun _ _ => rfl⟩

/-- Claim C9: for every key of the month table and both supported label
phrasings, the extractor applied to `<label> <monthName> <year>` with a
4-digit year returns exactly the table numeral, the year token and the
month name. -/
theorem parseInvoiceInfo_all_months_labels (m mm : Str) (d1 d2 d3 d4 : Char)
    (hm : monthsLookup m = some mm)
    (h1 : isDigitChar d1 = true) (h2 : isDigitChar d2 = true)
    (h3 : isDigitChar d3 = true) (h4 : isDigitChar d4 = true) :
    parseInvoiceInfo ("Rechnung ".toList ++ m ++ ' ' :: [d1, d2, d3, d4]) =
      some { Month := mm, Year := [d1, d2, d3, d4], MonthName := m } ∧
    parseInvoiceInfo
      ("Rechnungsdatum: 01. ".toList ++ m ++ ' ' :: [d1, d2, d3, d4]) =
      some { Month := mm, Year := [d1, d2, d3, d4], MonthName := m } := by
  obtain ⟨hletters, hne, hmR⟩ := monthKey_facts hm
  constructor
  · have hself := findFirst_of_self (matchP1At_label d1 d2 d3 d4 hletters hne h1 h2 h3 h4)
    simp only [parseInvoiceInfo, tryPattern, hself, hm]
  · have hself := findFirst_of_self (matchP2At_label d1 d2 d3 d4 hletters hne h1 h2 h3 h4)
    have hnone := findFirst_matchP1At_p2text d1 d2 d3 d4 hmR h1 h2 h3 h4
    simp only [parseInvoiceInfo, tryPattern, hnone, hself, hm]

/-- Witness for C9 at the month `Februar` and the year `2026`. -/
theorem parseInvoiceInfo_all_months_labels_witness :
    parseInvoiceInfo
      ("Rechnung ".toList ++ "Februar".toList ++ ' ' :: ['2', '0', '2', '6']) =
      some { Month := "02".toList, Year := ['2', '0', '2', '6'],
             MonthName := "Februar".toList } ∧
    parseInvoiceInfo
      ("Rechnungsdatum: 01. ".toList ++ "Februar".toList ++
        ' ' :: ['2', '0', '2', '6']) =
      some { Month := "02".toList, Year := ['2', '0', '2', '6'],
             MonthName := "Februar".toList } :=
  parseInvoiceInfo_all_months_labels ("Februar".toList) ("02".toList)
    '2' '0' '2' '6' (by decide) rfl rfl rfl rfl

/-- Counterexample to claim C3 as stated: after the marker, a line with
the unrecognized month token `January` and a valid date does not make the
resolver return `none`; the resolver skips that line and returns the
later valid `Februar` entry. -/
theorem parseArchiveFirstEntry_skips_unknown_month :
    parseArchiveFirstEntry
      ("Rechnungsarchiv\nJanuary\n04.01.2026\nFebruar\n04.12.2025".toList) =
      some { Month := "02".toList, Year := "2025".toList,
             MonthName := "Februar".toList } := by
  decide

/-- Claim C3 (amended): an occurrence whose month token is not one of the
twelve table names never matches the archive pattern; the resolver keeps
scanning and returns the first later occurrence whose month token is a
table name — for every table month following the unrecognized line, the
result is that later entry's period rather than `none`. -/
theorem parseArchiveFirstEntry_continues_after_unknown (m : Str)
    (hm : m ∈ monthKeys) :
    parseArchiveFirstEntry
      (("Rechnungsarchiv\nJanuary\n04.01.2026\n".toList : Str) ++ m ++
        ("\n04.12.2025".toList : Str)) =
      some { Month := (monthsLookup m).getD [], Year := "2025".toList,
             MonthName := m } := by
  have hall : (monthKeys.all fun m1 =>
      decide (parseArchiveFirstEntry
        (("Rechnungsarchiv\nJanuary\n04.01.2026\n".toList : Str) ++ m1 ++
          ("\n04.12.2025".toList : Str)) =
        some { Month := (monthsLookup m1).getD [], Year := "2025".toList,
               MonthName := m1 })) = true := by decide
  exact of_decide_eq_true (List.all_eq_true.mp hall m hm)

/-- Witness for C3 (amended) at the month `Dezember`. -/
theorem parseArchiveFirstEntry_continues_after_unknown_witness :
    parseArchiveFirstEntry
      (("Rechnungsarchiv\nJanuary\n04.01.2026\n".toList : Str) ++
        "Dezember".toList ++ ("\n04.12.2025".toList : Str)) =
      some { Month := (monthsLookup ("Dezember".toList)).getD [],
             Year := "2025".toList, MonthName := "Dezember".toList } :=
  parseArchiveFirstEntry_continues_after_unknown ("Dezember".toList) (by decide)

/-- Counterexample to claim C4 as stated: a captured queue entry whose
base64 payload is empty decodes successfully to the empty byte sequence,
and the acquisition then creates a `Captured` record with empty
`PDFData` instead of failing. -/
theorem downloadInvoice_empty_payload_document :
    capturePDF ["data:application/pdf;base64,".toList] = some [] ∧
    downloadInvoice ("Rechnungsarchiv\nJanuar\n04.01.2026".toList)
      ("Kabel".toList) ("Kabel".toList) ("02".toList) ("2026".toList) none
      (capturePDF ["data:application/pdf;base64,".toList]) =
      Outcome.Captured
        { Filename := mkFilename ("01".toList) ("2026".toList) ("Kabel".toList)
          Month := "01".toList
          Year := "2026".toList
          MonthName := "Januar".toList
          TypeName := "Kabel".toList
          PDFData := [] } := by
  decide

/-- Claim C4 (amended): for every captured queue, the acquisition either
fails or produces a record whose `PDFData` is exactly the base64 decoding
of the first queue entry after stripping the data-URL marker — which is
empty precisely when that decoding is empty, so the payload is not
non-empty by construction. -/
theorem downloadInvoice_pdfdata_from_queue (text tn tag cm cy : Str)
    (pq aq : List Str) (d : InvoiceInfo)
    (h : downloadInvoice text tn tag cm cy (capturePDF pq) (capturePDF aq) =
      Outcome.Captured d) :
    ∃ e : Str, (pq.head? = some e ∨ aq.head? = some e) ∧
      base64Decode (trimPrefixL dataURLPref e) = some d.PDFData := by
  have cap : ∀ (q : List Str) (bs : List Nat), capturePDF q = some bs →
      ∃ e, q.head? = some e ∧
        base64Decode (trimPrefixL dataURLPref e) = some bs := by
    intro q bs hq
    cases q with
    | nil => cases hq
    | cons e r => exact ⟨e, rfl, hq⟩
  unfold downloadInvoice at h
  cases hpi : parseInvoiceInfo text with
  | none =>
    simp only [hpi] at h
    cases hpa : parseArchiveFirstEntry text with
    | none =>
      simp only [hpa] at h
      exact Outcome.noConfusion h
    | some ai =>
      simp only [hpa] at h
      cases hcap : capturePDF aq with
      | none =>
        simp only [hcap] at h
        exact Outcome.noConfusion h
      | some pdf =>
        simp only [hcap] at h
        obtain ⟨e, he, hd⟩ := cap aq pdf hcap
        refine ⟨e, Or.inr he, ?_⟩
        injection h with h'
        rw [← h']
        exact hd
  | some i =>
    simp only [hpi] at h
    by_cases hc : i.Month = cm ∧ i.Year = cy
    · rw [if_pos hc] at h
      cases hcapp : capturePDF pq with
      | some pdf =>
        simp only [hcapp] at h
        obtain ⟨e, he, hd⟩ := cap pq pdf hcapp
        refine ⟨e, Or.inl he, ?_⟩
        injection h with h'
        rw [← h']
        exact hd
      | none =>
        simp only [hcapp] at h
        cases hpa : parseArchiveFirstEntry text with
        | none =>
          simp only [hpa] at h
          exact Outcome.noConfusion h
        | some ai =>
          simp only [hpa] at h
          cases hcap : capturePDF aq with
          | none =>
            simp only [hcap] at h
            exact Outcome.noConfusion h
          | some pdf =>
            simp only [hcap] at h
            obtain ⟨e, he, hd⟩ := cap aq pdf hcap
            refine ⟨e, Or.inr he, ?_⟩
            injection h with h'
            rw [← h']
            exact hd
    · rw [if_neg hc] at h
      cases hpa : parseArchiveFirstEntry text with
      | none =>
        simp only [hpa] at h
        exact Outcome.noConfusion h
      | some ai =>
        simp only [hpa] at h
        cases hcap : capturePDF aq with
        | none =>
          simp only [hcap] at h
          exact Outcome.noConfusion h
        | some pdf =>
          simp only [hcap] at h
          obtain ⟨e, he, hd⟩ := cap aq pdf hcap
          refine ⟨e, Or.inr he, ?_⟩
          injection h with h'
          rw [← h']
          exact hd

/-- Witness for C4 (amended): an archive capture of a non-empty base64
entry yields a record whose bytes are that entry's decoding. -/
theorem downloadInvoice_pdfdata_from_queue_witness :
    ∃ e : Str,
      (([] : List Str).head? = some e ∨
        (["data:application/pdf;base64,JVBERg==".toList] : List Str).head? =
          some e) ∧
      base64Decode (trimPrefixL dataURLPref e) = some [37, 80, 68, 70] :=
  downloadInvoice_pdfdata_from_queue
    ("Rechnungsarchiv\nJanuar\n04.01.2026".toList) ("Kabel".toList)
    ("Kabel".toList) ("02".toList) ("2026".toList) []
    ["data:application/pdf;base64,JVBERg==".toList]
    { Filename := mkFilename ("01".toList) ("2026".toList) ("Kabel".toList)
      Month := "01".toList
      Year := "2026".toList
      MonthName := "Januar".toList
      TypeName := "Kabel".toList
      PDFData := [37, 80, 68, 70] } (by decide)

/-- Claim C5: the archive resolver is determined by the suffix starting
at the first occurrence of the literal marker `Rechnungsarchiv`: without
the marker the result is `none` whatever else the page contains, and with
two valid entries after the marker the first one in document order is
returned. -/
theorem parseArchiveFirstEntry_marker_and_order :
    (∀ text : Str,
      (∀ u v : Str, text ≠ u ++ ("Rechnungsarchiv".toList : Str) ++ v) →
      parseArchiveFirstEntry text = none) ∧
    (∀ m1 m2 : Str, m1 ∈ monthKeys → m2 ∈ monthKeys →
      parseArchiveFirstEntry
        (("Rechnungsarchiv\n".toList : Str) ++ m1 ++
          ("\n10.11.2025\n".toList : Str) ++ m2 ++
          ("\n09.10.2024".toList : Str)) =
        some { Month := (monthsLookup m1).getD [], Year := "2025".toList,
               MonthName := m1 }) := by
  constructor
  · intro text habs
    unfold parseArchiveFirstEntry
    rw [suffixFrom_eq_none_iff.mpr habs]
  · have hall : (monthKeys.all fun m1 => monthKeys.all fun m2 =>
        decide (parseArchiveFirstEntry
          (("Rechnungsarchiv\n".toList : Str) ++ m1 ++
            ("\n10.11.2025\n".toList : Str) ++ m2 ++
            ("\n09.10.2024".toList : Str)) =
          some { Month := (monthsLookup m1).getD [], Year := "2025".toList,
                 MonthName := m1 })) = true := by decide
    intro m1 m2 h1 h2
    exact of_decide_eq_true
      (List.all_eq_true.mp (List.all_eq_true.mp hall m1 h1) m2 h2)

/-- Witness for C5: `November` before `Oktober` after the marker resolves
to November 2025, the first entry in document order. -/
theorem parseArchiveFirstEntry_marker_and_order_witness :
    parseArchiveFirstEntry
      (("Rechnungsarchiv\n".toList : Str) ++ "November".toList ++
        ("\n10.11.2025\n".toList : Str) ++ "Oktober".toList ++
        ("\n09.10.2024".toList : Str)) =
      some { Month := (monthsLookup ("November".toList)).getD [],
             Year := "2025".toList, MonthName := "November".toList } :=
  parseArchiveFirstEntry_marker_and_order.2 ("November".toList)
    ("Oktober".toList) (by decide) (by decide)

/-- Claim C8: the hook install phase is idempotent.  From a fresh page,
installing twice leaves `_origCreateObjectURL` pointing at the original
primitive (and it stays there under any further installs), and one PDF
blob creation after the double install queues exactly one captured
artifact while calling through to the original primitive. -/
theorem installHook_idempotent (s0 : PageState)
    (horig : s0.origCreateObjectURL = none)
    (hcreate : s0.createObjectURL = FuncRef.original) :
    (installHook (installHook s0)).origCreateObjectURL =
      some FuncRef.original ∧
    (installHook (installHook s0)).createObjectURL = FuncRef.wrapper ∧
    (∀ n, (installHook^[n] (installHook s0)).origCreateObjectURL =
      some FuncRef.original) ∧
    (∀ b : Blob, b.mime = ("application/pdf".toList : Str) →
      invokeCreateObjectURL (installHook (installHook s0)) b =
        some { capturedPDFs := [dataURLOf b]
               origCreateObjectURL := some FuncRef.original
               createObjectURL := FuncRef.wrapper }) := by
  have h1 : installHook s0 =
      { capturedPDFs := [], origCreateObjectURL := some FuncRef.original,
        createObjectURL := FuncRef.wrapper } := by
    simp [installHook, horig, hcreate]
  have h2 : installHook (installHook s0) =
      { capturedPDFs := [], origCreateObjectURL := some FuncRef.original,
        createObjectURL := FuncRef.wrapper } := by
    rw [h1]
    simp [installHook]
  have hstep : ∀ s : PageState,
      s.origCreateObjectURL = some FuncRef.original →
      (installHook s).origCreateObjectURL = some FuncRef.original := by
    intro s hs
    simp [installHook, hs]
  refine ⟨by rw [h2], by rw [h2], ?_, ?_⟩
  · intro n
    induction n with
    | zero =>
      rw [Function.iterate_zero_apply, h1]
    | succ k ih =>
      rw [Function.iterate_succ_apply']
      exact hstep _ ih
  · intro b hb
    rw [h2]
    simp [invokeCreateObjectURL, hb]

/-- Witness for C8 on a fresh page state and a concrete PDF blob. -/
theorem installHook_idempotent_witness :
    invokeCreateObjectURL
      (installHook (installHook
        { capturedPDFs := [], origCreateObjectURL := none,
          createObjectURL := FuncRef.original }))
      { mime := "application/pdf".toList, payload := "JVBERg==".toList } =
      some { capturedPDFs :=
               [dataURLOf { mime := "application/pdf".toList,
                            payload := "JVBERg==".toList }]
             origCreateObjectURL := some FuncRef.original
             createObjectURL := FuncRef.wrapper } :=
  (installHook_idempotent _ rfl rfl).2.2.2 _ rfl

/-- Claim C10: the mail builder lists every invoice as a body line, while
the attachment list is exactly the invoices with non-empty `PDFData`, in
order, as (filename, bytes) pairs — invoices with empty payloads appear
in the body but not as attachments. -/
theorem buildMessage_body_and_attachments (f t s : Str)
    (invs : List InvoiceInfo) :
    (∀ inv ∈ invs, ∃ u v,
      (buildMessage f t s invs).Body = u ++ invoiceLine inv ++ v) ∧
    (buildMessage f t s invs).Attachments =
      (invs.filter (fun inv => !inv.PDFData.isEmpty)).map
        (fun inv => (inv.Filename, inv.PDFData)) := by
  refine ⟨?_, rfl⟩
  intro inv hmem
  obtain ⟨xs, ys, rfl⟩ := List.append_of_mem hmem
  refine ⟨"Dokumente anbei.\n".toList ++ (xs.map invoiceLine).flatten,
    (ys.map invoiceLine).flatten, ?_⟩
  simp [buildMessage, List.map_append, List.append_assoc]

/-- Witness for C10: an invoice with empty `PDFData` still has its body
line embedded in the message body. -/
theorem buildMessage_body_and_attachments_witness :
    ∃ u v,
      (buildMessage ("s@x.de".toList) ("r@x.de".toList) []
        [{ Month := "02".toList, Year := "2026".toList,
           MonthName := "Februar".toList, TypeName := "Mobilfunk".toList,
           PDFData := [37] },
         { Month := "01".toList, Year := "2026".toList,
           MonthName := "Januar".toList, TypeName := "Kabel".toList,
           PDFData := [] }]).Body =
        u ++ invoiceLine
          { Month := "01".toList, Year := "2026".toList,
            MonthName := "Januar".toList, TypeName := "Kabel".toList,
            PDFData := [] } ++ v :=
  (buildMessage_body_and_attachments _ _ _ _).1 _ (by simp)
